import Mathlib

/-!
Shallow embedding of the flat-session launcher (`src/flatSessionLauncher.ts`)
of the vscode-pwa "flat session" mode, covering both sampled source variants:
variant A is `src/src/flatSessionLauncher.ts`, variant B is `src/unnamed/part_000`.

Configurations (plain JS objects whose values we only compare) are association
lists; the JS spread `\x7b...config, sessionId: x\x7d` is `cfgSet`.  Promise
plumbing is made explicit: a notification chained on a not-yet-resolved
connection promise is recorded in a `pendingProcessNotifications` queue, which
is delivered in registration order once the deferred connection resolves.
-/

/-- A JS configuration object, viewed as an association list of its fields. -/
abbrev Config := List (String × String)

/-- Field lookup on a configuration: first binding wins (JS objects have unique
keys, so on well-formed configurations this is plain field access). -/
def cfgLookup : Config → String → Option String
  | [], _ => none
  | (k, v) :: rest, key => if k = key then some v else cfgLookup rest key

/-- The JS spread-with-override `\x7b...cfg, key: val\x7d`: if the key is
present its value is replaced in place, otherwise the binding is appended. -/
def cfgSet : Config → String → String → Config
  | [], key, val => [(key, val)]
  | (k, v) :: rest, key, val =>
      if k = key then (key, val) :: rest else (k, v) :: cfgSet rest key val

/-- JS `s || d` for an optional string: `undefined` and `""` are falsy. -/
def jsStringOr (s : Option String) (d : String) : String :=
  match s with
  | none => d
  | some v => if v = "" then d else v

/-- The payload of `dap.process(...)`: the argument object of a domain
"process" notification. -/
structure ProcessNotification where
  systemProcessId : Nat
  name : String
deriving DecidableEq, Repr

/-- The `VSDebugSession` object.  `internalName` embeds the private `_name`
field.  `pendingProcessNotifications` records, in registration order, the
"process" notifications chained on the child-connection promise; they are
emitted in this order once the deferred connection resolves. -/
structure VSDebugSession where
  id : String
  mockProcessId : Nat
  internalName : String
  pendingProcessNotifications : List ProcessNotification
deriving DecidableEq, Repr

/-- Variant A name setter (`src/src/flatSessionLauncher.ts:44`): assigns
`_name` immediately, then chains `dap.process(\x7bsystemProcessId, name\x7d)`
on the child-connection promise. -/
def setNameA (s : VSDebugSession) (newName : String) : VSDebugSession :=
  { s with
    internalName := newName,
    pendingProcessNotifications :=
      s.pendingProcessNotifications ++ [⟨s.mockProcessId, newName⟩] }

/-- Variant B name setter (`src/unnamed/part_000:42`): chains the same
`dap.process` notification but never assigns `_name`. -/
def setNameB (s : VSDebugSession) (newName : String) : VSDebugSession :=
  { s with
    pendingProcessNotifications :=
      s.pendingProcessNotifications ++ [⟨s.mockProcessId, newName⟩] }

/-- The `name` getter, identical in both variants: returns `_name`. -/
def getName (s : VSDebugSession) : String := s.internalName

/-- A sequence of variant A name assignments, in order. -/
def setNamesA (s : VSDebugSession) (ns : List String) : VSDebugSession :=
  ns.foldl setNameA s

/-- Modelled from the spec: `ChildConnection` lives in
`src/dap/flatSessionConnection.ts`, which is not under `src/`.  Per §2 and
§4.2, a Child Connection View is determined by the shared root multiplexed
connection it borrows dispatch rights from (identified here by a number) and
the one session identifier it is scoped to. -/
structure ChildConnection where
  rootConnection : Nat
  sessionId : Option String
deriving DecidableEq, Repr

/-- The `VSConnectionStrategy` object: closes over the manager's root
connection and one session identifier. -/
structure VSConnectionStrategy where
  rootConnection : Nat
  sessionId : Option String
deriving DecidableEq, Repr

/-- `VSConnectionStrategy.getConnection`: builds the `ChildConnection` for this
strategy's session identifier on the shared root connection (the telemetry and
logger arguments carry no routing information and are omitted). -/
def getConnection (strat : VSConnectionStrategy) : ChildConnection :=
  ⟨strat.rootConnection, strat.sessionId⟩

/-- What `createSession` records about one created session: the identifier it
was requested with, the `id` stored on the constructed `VSDebugSession`, its
name, its assigned `mockProcessId`, and the session identifier and root
connection handed to its connection strategy. -/
structure SessionRecord where
  requestedSessionId : Option String
  sessionObjectId : String
  name : String
  mockProcessId : Nat
  strategySessionId : Option String
  strategyRootConnection : Nat
deriving DecidableEq, Repr

/-- The `VSSessionManager` state: the shared root `MessageEmitterConnection`
(identified by a number), the `mockProcessId` counter, and the sessions
created so far, in creation order. -/
structure VSSessionManager where
  rootConnection : Nat
  mockProcessId : Nat
  sessions : List SessionRecord
deriving DecidableEq, Repr

/-- Variant A `createSession(sessionId, name, config)`
(`src/src/flatSessionLauncher.ts:106`): builds a strategy for `sessionId` over
the shared root connection, constructs `VSDebugSession` with id
`sessionId || 'root'` and the current `mockProcessId`, and post-increments the
counter.  The configuration is passed through to the session manager and does
not affect this state. -/
def createSessionA (m : VSSessionManager) (sessionId : Option String) (name : String)
    (_config : Config) : VSSessionManager :=
  { m with
    mockProcessId := m.mockProcessId + 1,
    sessions := m.sessions ++
      [{ requestedSessionId := sessionId,
         sessionObjectId := jsStringOr sessionId "root",
         name := name,
         mockProcessId := m.mockProcessId,
         strategySessionId := sessionId,
         strategyRootConnection := m.rootConnection }] }

/-- Variant B `createSession(sessionId, name, config)`
(`src/unnamed/part_000:115`): the session identifier is a plain string and is
stored on the `VSDebugSession` unchanged. -/
def createSessionB (m : VSSessionManager) (sessionId : String) (name : String)
    (_config : Config) : VSSessionManager :=
  { m with
    mockProcessId := m.mockProcessId + 1,
    sessions := m.sessions ++
      [{ requestedSessionId := some sessionId,
         sessionObjectId := sessionId,
         name := name,
         mockProcessId := m.mockProcessId,
         strategySessionId := some sessionId,
         strategyRootConnection := m.rootConnection }] }

/-- The variant A `VSSessionManager` constructor, restricted to the state
above: the counter starts at 1 and the constructor performs the single call
`createSession(undefined, 'rootSession', \x7b\x7d)`. -/
def VSSessionManagerInit (rootConnection : Nat) : VSSessionManager :=
  createSessionA ⟨rootConnection, 1, []⟩ none "rootSession" []

/-- The variant B `VSSessionManager` constructor: the single startup call is
`createSession('', 'rootSession', \x7b\x7d)`. -/
def VSSessionManagerInitB (rootConnection : Nat) : VSSessionManager :=
  createSessionB ⟨rootConnection, 1, []⟩ "" "rootSession" []

/-- One `createSession` request, for iterating the manager. -/
structure CreateRequest where
  sessionId : Option String
  name : String
  config : Config
deriving DecidableEq, Repr

/-- A sequence of variant A `createSession` calls applied in order. -/
def runCreates (m : VSSessionManager) (reqs : List CreateRequest) : VSSessionManager :=
  reqs.foldl (fun st r => createSessionA st r.sessionId r.name r.config) m

/-- The description of a child target handed to the session launcher:
`target.id()` and `target.name()`. -/
structure LaunchTarget where
  id : String
  name : String
deriving DecidableEq, Repr

/-- The control message literal sent by the launcher:
`\x7bseq, type, command, arguments: \x7bconfig\x7d\x7d`. -/
structure ControlMessage where
  seq : Nat
  type : String
  command : String
  argumentsConfig : Config
deriving DecidableEq, Repr

/-- The observable actions of one session-launcher callback invocation. -/
inductive LauncherEvent where
  | createSessionCall (sessionId : Option String) (name : String) (config : Config)
  | parentSend (msg : ControlMessage)
deriving DecidableEq, Repr

/-- The body of the callback returned by `buildVSSessionLauncher`
(`src/src/flatSessionLauncher.ts:87`), as the ordered list of its actions:
it merges `sessionId: target.id()` into the parent configuration, calls
`createSession` for the child, then sends the `attachedChildSession` control
message on the parent's connection.  Variant B performs the same two actions
in the same order (its send is additionally gated on the parent connection
promise, which does not change the message or the order of initiation). -/
def buildVSSessionLauncher (target : LaunchTarget) (config : Config) : List LauncherEvent :=
  let childAttachConfig := cfgSet config "sessionId" target.id
  [LauncherEvent.createSessionCall (some target.id) target.name childAttachConfig,
   LauncherEvent.parentSend
     { seq := 0,
       command := "attachedChildSession",
       type := "request",
       argumentsConfig := childAttachConfig }]

/-- Recognizes the launcher's send on the parent connection. -/
def isParentSend : LauncherEvent → Bool
  | LauncherEvent.parentSend _ => true
  | _ => false

/-- Variant A child launch as a state transformer on the manager: the launcher
callback's `createSession` call applied to the manager state, paired with the
merged configuration it announces to the parent. -/
def childLaunchA (m : VSSessionManager) (target : LaunchTarget) (config : Config) :
    VSSessionManager × Config :=
  (createSessionA m (some target.id) target.name (cfgSet config "sessionId" target.id),
   cfgSet config "sessionId" target.id)

/-- The observable steps of one variant A `createSession` call, in program
order (`src/src/flatSessionLauncher.ts:106`). -/
inductive CreateEvent where
  | strategyBuilt (sessionId : Option String)
  | deferredCreated
  | sessionConstructed (id : String) (mockProcessId : Nat)
  | deferredResolved (conn : ChildConnection)
deriving DecidableEq, Repr

/-- Recognizes the resolution of the deferred connection handle. -/
def isDeferredResolved : CreateEvent → Bool
  | CreateEvent.deferredResolved _ => true
  | _ => false

/-- Trace of variant A `createSession`: build the strategy, create the
deferred handle, construct the `VSDebugSession` holding the still-unresolved
promise, then resolve the deferred with `newSession.connection`.  Modelled
from the spec: `SessionManager.createNewSession` (in `src/sessionManager.ts`,
not under `src/`) per §4.3-§4.4 obtains the session's connection from the
supplied strategy's `getConnection`, so the resolved connection is the
`ChildConnection` for this session's identifier on the shared root
connection. -/
def createSessionTraceA (m : VSSessionManager) (sessionId : Option String) :
    List CreateEvent :=
  [CreateEvent.strategyBuilt sessionId,
   CreateEvent.deferredCreated,
   CreateEvent.sessionConstructed (jsStringOr sessionId "root") m.mockProcessId,
   CreateEvent.deferredResolved (getConnection ⟨m.rootConnection, sessionId⟩)]

/-- After `cfgSet cfg key val`, looking up `key` yields `val`. -/
theorem cfgLookup_cfgSet_self (cfg : Config) (key val : String) :
    cfgLookup (cfgSet cfg key val) key = some val := by
  induction cfg with
  | nil => simp [cfgSet, cfgLookup]
  | cons p rest ih =>
    obtain ⟨k0, v0⟩ := p
    by_cases hk : k0 = key
    · simp [cfgSet, hk, cfgLookup]
    · simp [cfgSet, hk, cfgLookup, ih]

/-- After `cfgSet cfg key val`, every other key's lookup is unchanged. -/
theorem cfgLookup_cfgSet_other (cfg : Config) (key val k : String) (h : k ≠ key) :
    cfgLookup (cfgSet cfg key val) k = cfgLookup cfg k := by
  induction cfg with
  | nil =>
    have hk : ¬key = k := fun hh => h hh.symm
    simp [cfgSet, cfgLookup, hk]
  | cons p rest ih =>
    obtain ⟨k0, v0⟩ := p
    by_cases hk : k0 = key
    · subst hk
      have hk2 : ¬k0 = k := fun hh => h hh.symm
      simp [cfgSet, cfgLookup, hk2]
    · by_cases hk' : k0 = k
      · subst hk'
        simp [cfgSet, hk, cfgLookup]
      · simp [cfgSet, hk, cfgLookup, hk', ih]

/-- The root `VSDebugSession` of variant A as constructed at startup, with an
unresolved child connection and no notification yet delivered. -/
def rootSessionA : VSDebugSession := ⟨"root", 1, "rootSession", []⟩

/-- A concrete variant B child session used as a counterexample input. -/
def sessionB0 : VSDebugSession := ⟨"child-1", 2, "original", []⟩

/-- C1: each invocation of the session-launcher callback sends exactly one
Session Launch Protocol control message on the parent session's connection,
and it is exactly seq 0, type "request", command "attachedChildSession", with
the merged child configuration (parent configuration plus injected sessionId)
as its arguments. -/
theorem launcher_sends_one_attach_message (target : LaunchTarget) (config : Config) :
    (buildVSSessionLauncher target config).filter isParentSend =
      [LauncherEvent.parentSend
        { seq := 0,
          type := "request",
          command := "attachedChildSession",
          argumentsConfig := cfgSet config "sessionId" target.id }] := by
  rfl

/-- C2 counterexample: at startup the variant A manager constructs its root
`VSDebugSession` with the non-empty id `"root"` (from `sessionId || 'root'`),
so the root Session object's identifier is neither absent nor empty. -/
theorem root_session_object_id_nonempty :
    ((VSSessionManagerInit 0).sessions.map (fun r => r.sessionObjectId) = ["root"]) ∧
    ¬ (∀ r ∈ (VSSessionManagerInit 0).sessions, r.sessionObjectId = "") := by
  exact ⟨rfl, by decide⟩

/-- C2 (amended): at startup each manager variant creates exactly one session,
requested with an absent (variant A) or empty (variant B) session identifier,
named "rootSession", and that absent/empty identifier is what the connection
strategy receives; the root `VSDebugSession` object's own `id` field, however,
holds the placeholder `"root"` in variant A, while variant B stores the empty
string. -/
theorem root_session_created_once (rc : Nat) :
    (VSSessionManagerInit rc).sessions =
      [{ requestedSessionId := none, sessionObjectId := "root", name := "rootSession",
         mockProcessId := 1, strategySessionId := none, strategyRootConnection := rc }] ∧
    (VSSessionManagerInitB rc).sessions =
      [{ requestedSessionId := some "", sessionObjectId := "", name := "rootSession",
         mockProcessId := 1, strategySessionId := some "", strategyRootConnection := rc }] := by
  exact ⟨rfl, rfl⟩

/-- C3 counterexample: two name assignments before the deferred connection
resolves queue two "process" notifications, so resolution emits two rather
than exactly one, and the first carries the intermediate name rather than the
final one. -/
theorem two_assignments_two_notifications :
    (setNameA (setNameA rootSessionA "step") "worker").pendingProcessNotifications =
      [⟨1, "step"⟩, ⟨1, "worker"⟩] ∧
    ¬ (List.length
        (setNameA (setNameA rootSessionA "step") "worker").pendingProcessNotifications
        = 1) := by
  exact ⟨rfl, by decide⟩

/-- C3 (amended): if a session's name is assigned the names `ns` in order
before its deferred connection resolves, then upon resolution one "process"
notification per assignment is emitted, in assignment order, each carrying the
name assigned at that point — so the last emitted notification carries the
final name. -/
theorem one_notification_per_assignment (s : VSDebugSession) (ns : List String) :
    (setNamesA s ns).pendingProcessNotifications =
      s.pendingProcessNotifications ++
        ns.map (fun n => ProcessNotification.mk s.mockProcessId n) := by
  induction ns generalizing s with
  | nil => simp [setNamesA]
  | cons n rest ih =>
    have h := ih (setNameA s n)
    simp only [setNamesA, List.foldl_cons] at h ⊢
    rw [h]
    simp [setNameA]

/-- C4 counterexample: in variant B the name setter never updates the internal
field, so after assigning "renamed" the getter still returns "original". -/
theorem variantB_setter_does_not_update :
    getName (setNameB sessionB0 "renamed") = "original" ∧
    ¬ (getName (setNameB sessionB0 "renamed") = "renamed") := by
  exact ⟨rfl, by decide⟩

/-- C4 (amended): the name setter updates the internal field immediately only
in variant A, where the getter then returns the new name; in variant B the
setter leaves the field untouched, so the getter keeps returning the previous
name; both variants queue one "process" notification for every assignment. -/
theorem name_setter_update_policy (s : VSDebugSession) (n : String) :
    getName (setNameA s n) = n ∧
    getName (setNameB s n) = getName s ∧
    (setNameA s n).pendingProcessNotifications =
      s.pendingProcessNotifications ++ [⟨s.mockProcessId, n⟩] ∧
    (setNameB s n).pendingProcessNotifications =
      s.pendingProcessNotifications ++ [⟨s.mockProcessId, n⟩] := by
  exact ⟨rfl, rfl, rfl, rfl⟩

/-- C5: in both variants, every assignment of a name `n` to a session chains
onto the session's connection promise exactly one domain "process"
notification carrying the session's `mockProcessId` and the newly assigned
name, delivered through the connection once it resolves. -/
theorem assignment_emits_process_notification (s : VSDebugSession) (n : String) :
    (setNameA s n).pendingProcessNotifications =
      s.pendingProcessNotifications ++ [⟨s.mockProcessId, n⟩] ∧
    (setNameB s n).pendingProcessNotifications =
      s.pendingProcessNotifications ++ [⟨s.mockProcessId, n⟩] := by
  exact ⟨rfl, rfl⟩

/-- C6: the merged child configuration passed to `createSession` and announced
in the `attachedChildSession` message is the parent configuration with the
child target's id injected as `sessionId`, overriding any pre-existing
`sessionId` field and leaving every other field unchanged. -/
theorem merged_config_injects_sessionId (target : LaunchTarget) (config : Config)
    (k : String) (hk : k ≠ "sessionId") :
    buildVSSessionLauncher target config =
      [LauncherEvent.createSessionCall (some target.id) target.name
         (cfgSet config "sessionId" target.id),
       LauncherEvent.parentSend
         { seq := 0, type := "request", command := "attachedChildSession",
           argumentsConfig := cfgSet config "sessionId" target.id }] ∧
    cfgLookup (cfgSet config "sessionId" target.id) "sessionId" = some target.id ∧
    cfgLookup (cfgSet config "sessionId" target.id) k = cfgLookup config k := by
  exact ⟨rfl, cfgLookup_cfgSet_self config "sessionId" target.id,
         cfgLookup_cfgSet_other config "sessionId" target.id k hk⟩

/-- C6 witness: on the concrete parent configuration
`[("type", "pwa-node"), ("sessionId", "old")]` with child id `"child-1"`, the
merged configuration maps `sessionId` to `"child-1"` and leaves `type`
unchanged. -/
theorem merged_config_injects_sessionId_witness :
    (("type" : String) ≠ "sessionId") ∧
    cfgLookup (cfgSet [("type", "pwa-node"), ("sessionId", "old")] "sessionId" "child-1")
        "sessionId" = some "child-1" ∧
    cfgLookup (cfgSet [("type", "pwa-node"), ("sessionId", "old")] "sessionId" "child-1")
        "type" = some "pwa-node" := by
  refine ⟨by decide, ?_, ?_⟩
  · exact (merged_config_injects_sessionId ⟨"child-1", "worker"⟩
      [("type", "pwa-node"), ("sessionId", "old")] "type" (by decide)).2.1
  · exact (merged_config_injects_sessionId ⟨"child-1", "worker"⟩
      [("type", "pwa-node"), ("sessionId", "old")] "type" (by decide)).2.2

/-- C7: a variant A `createSession` call resolves the deferred connection
handle exactly once, after the `VSDebugSession` has been constructed holding
the still-unresolved handle, and the resolved value is that session's Child
Connection View: the `ChildConnection` for the session's identifier on the
shared root connection, obtained from the session's connection strategy. -/
theorem deferred_resolved_once_after_construction (m : VSSessionManager)
    (sessionId : Option String) :
    createSessionTraceA m sessionId =
      [CreateEvent.strategyBuilt sessionId,
       CreateEvent.deferredCreated,
       CreateEvent.sessionConstructed (jsStringOr sessionId "root") m.mockProcessId,
       CreateEvent.deferredResolved (getConnection ⟨m.rootConnection, sessionId⟩)] ∧
    (createSessionTraceA m sessionId).filter isDeferredResolved =
      [CreateEvent.deferredResolved (getConnection ⟨m.rootConnection, sessionId⟩)] ∧
    ∃ i j, i < j ∧
      (createSessionTraceA m sessionId).get? i =
        some (CreateEvent.sessionConstructed (jsStringOr sessionId "root")
          m.mockProcessId) ∧
      (createSessionTraceA m sessionId).get? j =
        some (CreateEvent.deferredResolved
          (getConnection ⟨m.rootConnection, sessionId⟩)) := by
  exact ⟨rfl, rfl, 2, 3, by omega, rfl, rfl⟩

/-- C8: in the session-launcher callback the `createSession` call for the
child is the first action, and every send on the parent's connection happens
strictly after it. -/
theorem createSession_precedes_parent_notification (target : LaunchTarget)
    (config : Config) :
    (buildVSSessionLauncher target config).get? 0 =
      some (LauncherEvent.createSessionCall (some target.id) target.name
        (cfgSet config "sessionId" target.id)) ∧
    ∀ j e, (buildVSSessionLauncher target config).get? j = some e →
      isParentSend e = true → 0 < j := by
  refine ⟨rfl, ?_⟩
  intro j e h hsend
  match j with
  | 0 =>
    have h0 : (some (LauncherEvent.createSessionCall (some target.id) target.name
        (cfgSet config "sessionId" target.id)) : Option LauncherEvent) = some e := h
    cases h0
    simp [isParentSend] at hsend
  | jj + 1 => exact Nat.succ_pos jj

/-- Iterating variant A `createSession` appends one session per call, assigns
the counter values consecutively from the starting counter, and advances the
counter by the number of calls. -/
theorem runCreates_mockIds (reqs : List CreateRequest) (m : VSSessionManager) :
    ((runCreates m reqs).sessions.map (fun r => r.mockProcessId)) =
      m.sessions.map (fun r => r.mockProcessId) ++
        List.range' m.mockProcessId reqs.length ∧
    (runCreates m reqs).mockProcessId = m.mockProcessId + reqs.length := by
  induction reqs generalizing m with
  | nil => simp [runCreates]
  | cons r rest ih =>
    have h := ih (createSessionA m r.sessionId r.name r.config)
    simp only [runCreates, List.foldl_cons] at h ⊢
    refine ⟨?_, ?_⟩
    · rw [h.1]
      simp [createSessionA, List.range'_succ, List.append_assoc]
    · rw [h.2]
      simp [createSessionA]
      omega

/-- C9: starting from the variant A manager (whose constructor creates the
root session with counter value 1), after any further sequence of
`createSession` calls the k-th session created carries `mockProcessId` k
(k = 1 for the root session), so all surrogate identifiers are distinct and
the counter strictly increases across calls. -/
theorem mockProcessIds_distinct_consecutive (rc : Nat) (reqs : List CreateRequest) :
    ((runCreates (VSSessionManagerInit rc) reqs).sessions.map
        (fun r => r.mockProcessId)) = List.range' 1 (reqs.length + 1) ∧
    ((runCreates (VSSessionManagerInit rc) reqs).sessions.map
        (fun r => r.mockProcessId)).Nodup ∧
    (runCreates (VSSessionManagerInit rc) reqs).sessions.length = reqs.length + 1 ∧
    (runCreates (VSSessionManagerInit rc) reqs).mockProcessId = reqs.length + 2 := by
  have h := runCreates_mockIds reqs (VSSessionManagerInit rc)
  have hinit : (VSSessionManagerInit rc).sessions.map (fun r => r.mockProcessId) =
      [1] := rfl
  have hm : (VSSessionManagerInit rc).mockProcessId = 2 := rfl
  have hmap : ((runCreates (VSSessionManagerInit rc) reqs).sessions.map
      (fun r => r.mockProcessId)) = List.range' 1 (reqs.length + 1) := by
    rw [h.1, hinit, hm, List.range'_succ]
    rfl
  refine ⟨hmap, ?_, ?_, ?_⟩
  · rw [hmap]
    exact List.nodup_range' 1 (reqs.length + 1)
  · have := congrArg List.length hmap
    simpa using this
  · rw [h.2, hm]
    omega

/-- C10 counterexample: launching a child whose target id is the empty string
from the freshly started variant A manager injects `sessionId := ""` into the
merged configuration, yet the constructed child `VSDebugSession` gets the id
`"root"` (from `sessionId || 'root'`), so the three places do not all carry
the target's id. -/
theorem empty_target_id_breaks_consistency :
    cfgLookup (childLaunchA (VSSessionManagerInit 0) ⟨"", "worker"⟩ []).2 "sessionId" =
      some "" ∧
    ((childLaunchA (VSSessionManagerInit 0) ⟨"", "worker"⟩ []).1.sessions.getLast?.map
        (fun r => r.sessionObjectId)) = some "root" ∧
    ¬ (((childLaunchA (VSSessionManagerInit 0) ⟨"", "worker"⟩ []).1.sessions.getLast?.map
        (fun r => r.sessionObjectId)) = some "") := by
  exact ⟨rfl, rfl, by decide⟩

/-- C10 (amended): for every child launch whose target id is non-empty, the
same identifier is used in all three places — as the `sessionId` injected into
the merged configuration, as the `id` of the constructed child
`VSDebugSession`, and as the session identifier handed to the connection
strategy, which closes over the manager's single shared root connection; when
the target id is the empty string, variant A's session object instead gets the
placeholder id `"root"` (variant B stores the target id unconditionally). -/
theorem child_launch_uses_consistent_ids (m : VSSessionManager) (target : LaunchTarget)
    (config : Config) (h : target.id ≠ "") :
    ∃ r : SessionRecord,
      (childLaunchA m target config).1.sessions = m.sessions ++ [r] ∧
      cfgLookup (childLaunchA m target config).2 "sessionId" = some target.id ∧
      r.sessionObjectId = target.id ∧
      r.strategySessionId = some target.id ∧
      r.strategyRootConnection = m.rootConnection := by
  refine ⟨_, rfl, cfgLookup_cfgSet_self config "sessionId" target.id, ?_, rfl, rfl⟩
  simp [childLaunchA, createSessionA, jsStringOr, h]

/-- C10 witness: launching the child `"child-1"` from the freshly started
variant A manager uses `"child-1"` as the injected `sessionId`, as the child
session object's id, and as the strategy's session identifier over the
manager's root connection. -/
theorem child_launch_uses_consistent_ids_witness :
    (("child-1" : String) ≠ "") ∧
    ∃ r : SessionRecord,
      (childLaunchA (VSSessionManagerInit 0) ⟨"child-1", "worker"⟩ []).1.sessions =
        (VSSessionManagerInit 0).sessions ++ [r] ∧
      cfgLookup (childLaunchA (VSSessionManagerInit 0) ⟨"child-1", "worker"⟩ []).2
          "sessionId" = some "child-1" ∧
      r.sessionObjectId = "child-1" ∧
      r.strategySessionId = some "child-1" ∧
      r.strategyRootConnection = (VSSessionManagerInit 0).rootConnection := by
  exact ⟨by decide, child_launch_uses_consistent_ids (VSSessionManagerInit 0)
    ⟨"child-1", "worker"⟩ [] (by decide)⟩
